import Mathlib

/-!
Shallow embedding of the resilient upstream-call layer of the
amadeus-mcp-server-standalone repository: the error classifier, the timeout
race, the retry executor (`src/src/tools.ts`), the cache wrapper
(`src/src/index.ts`), and the cache store it delegates to.

Asynchronous thunks are modelled by their settlement behaviour: a thunk either
settles with a success value, settles with an error value, or never settles
within the timeout window (`hang`).  A stateful thunk whose behaviour varies
across invocations is modelled as a function from the invocation index to its
behaviour on that invocation.  JavaScript dynamic values, whose truthiness the
cache wrapper tests, are modelled by the `JSValue` type.
-/

/-- Whether the character list `pat` is an initial segment of `hay`
(character-by-character comparison, as in JavaScript string search). -/
def charsStartWith : List Char → List Char → Bool
  | _, [] => true
  | [], _ :: _ => false
  | a :: as, b :: bs => a == b && charsStartWith as bs

/-- Whether the character list `pat` occurs contiguously anywhere in `hay`. -/
def charsContain : List Char → List Char → Bool
  | [], pat => charsStartWith [] pat
  | a :: as, pat => charsStartWith (a :: as) pat || charsContain as pat

/-- JavaScript `hay.includes(pat)`: substring containment test. -/
def strIncludes (hay pat : String) : Bool :=
  charsContain hay.data pat.data

/-- The `error.response` object carried by an upstream failure; only its
`statusCode` field is inspected by the classifier (`src/src/tools.ts:40`). -/
structure ErrResponse where
  statusCode : Option Nat
deriving DecidableEq

/-- The failure value observed by `makeApiCallWithRetry`'s catch block: an
optional `response` object, an optional `message` string and an optional
`code` string (`src/src/tools.ts:37-42`). -/
structure ApiError where
  response : Option ErrResponse
  message : Option String
  code : Option String
deriving DecidableEq

/-- The transient/terminal classifier of `src/src/tools.ts:39-42`:
`isRetryableError` is true when the response carries status code 429, or the
message is a nonempty string containing the substring "timeout", or the code
is a nonempty string among ECONNRESET, ENOTFOUND, ETIMEDOUT.  The nonemptiness
conjuncts embed JavaScript truthiness of `error.message` and `error.code`. -/
def isRetryableError (error : ApiError) : Bool :=
  (match error.response with
    | some r => r.statusCode == some 429
    | none => false)
  || (match error.message with
    | some m => m != "" && strIncludes m "timeout"
    | none => false)
  || (match error.code with
    | some c => c != "" && ["ECONNRESET", "ENOTFOUND", "ETIMEDOUT"].contains c
    | none => false)

/-- The message of the error produced by the timeout timer in `withTimeout`
(`src/src/tools.ts:13`): `operation ++ " timed out after " ++ timeoutMs ++ "ms"`. -/
def timeoutMessage (operation : String) (timeoutMs : Nat) : String :=
  operation ++ " timed out after " ++ toString timeoutMs ++ "ms"

/-- The error value rejected by the timeout timer: a bare `Error` object with
only a message (no `response` and no `code` field). -/
def timeoutError (operation : String) (timeoutMs : Nat) : ApiError :=
  { response := none, message := some (timeoutMessage operation timeoutMs), code := none }

/-- Settlement behaviour of one invocation of an asynchronous thunk: success,
failure, or never settling within the timeout window. -/
inductive ThunkBehavior (α : Type) where
  | ok (v : α)
  | err (e : ApiError)
  | hang
deriving DecidableEq

/-- `withTimeout` of `src/src/tools.ts:6-25`: race the thunk's settlement
against a timer of `timeoutMs`.  A settling thunk wins the race and its
outcome passes through unchanged (the catch block only logs and rethrows); a
thunk that never settles loses the race to the timer, whose rejection carries
`timeoutError operation timeoutMs`. -/
def withTimeout {α : Type} (result : ThunkBehavior α) (timeoutMs : Nat)
    (operation : String) : Except ApiError α :=
  match result with
  | .ok v => .ok v
  | .err e => .error e
  | .hang => .error (timeoutError operation timeoutMs)

deriving instance DecidableEq for Except

/-- Observable outcome of one run of the retry executor: the settled result,
the number of thunk invocations made, and the list of backoff delays slept
between consecutive attempts, in order. -/
structure RetryRun (α : Type) where
  result : Except ApiError α
  calls : Nat
  delays : List Nat
deriving DecidableEq

/-- `makeApiCallWithRetry` of `src/src/tools.ts:28-53`: run the thunk under
`withTimeout`; on success return it; on failure, if the error is retryable and
retries remain, sleep `delay` and recurse with `retries - 1` and `delay * 2`,
otherwise rethrow.  `attempt` indexes which invocation of the thunk is made;
the run additionally records the invocation count and the backoff delays. -/
def makeApiCallWithRetry {α : Type} (apiCallFn : Nat → ThunkBehavior α)
    (operation : String) :
    Nat → Nat → Nat → Nat → RetryRun α
  | retries, delay, timeoutMs, attempt =>
    match withTimeout (apiCallFn attempt) timeoutMs operation with
    | .ok v => ⟨.ok v, 1, []⟩
    | .error e =>
      match retries with
      | 0 => ⟨.error e, 1, []⟩
      | r + 1 =>
        if isRetryableError e then
          let rest := makeApiCallWithRetry apiCallFn operation r (delay * 2)
            timeoutMs (attempt + 1)
          ⟨rest.result, rest.calls + 1, delay :: rest.delays⟩
        else
          ⟨.error e, 1, []⟩

/-- A JavaScript value, as far as the cache wrapper observes one: the
distinguishing feature is truthiness.  Objects are identified by an opaque
tag. -/
inductive JSValue where
  | undef
  | nullv
  | boolean (b : Bool)
  | number (n : Int)
  | str (s : String)
  | obj (tag : Nat)
deriving DecidableEq

/-- JavaScript truthiness of a value: `undefined`, `null`, `false`, `0` and
`""` are falsy, everything else is truthy. -/
def JSValue.truthy : JSValue → Bool
  | .undef => false
  | .nullv => false
  | .boolean b => b
  | .number n => n != 0
  | .str s => s != ""
  | .obj _ => true

/-- One entry of the cache store: a key, the stored value, and the absolute
expiration time. -/
structure CacheEntry where
  key : String
  value : JSValue
  expiresAt : Nat
deriving DecidableEq

/-- Modelled from the spec: the Cache Store (the `node-cache` dependency
behind the `TypedCache` wrapper of `src/src/index.ts:8-11,35-39`) is not part
of this repository's sources; §4.1 of the spec specifies it as a keyed store
of entries with expiration times.  Represented as an association list. -/
abbrev CacheStore := List CacheEntry

/-- Raw lookup of the entry stored under key `k`, ignoring expiry. -/
def cacheLookup (st : CacheStore) (k : String) : Option (JSValue × Nat) :=
  match st with
  | [] => none
  | e :: rest => if e.key == k then some (e.value, e.expiresAt) else cacheLookup rest k

/-- Modelled from the spec: `get(key)` returns the stored value iff an entry
is present and unexpired (`now < expiresAt`); absence and expiry are silent
(`§4.1: returns the stored value iff present and unexpired`). -/
def cacheGet (st : CacheStore) (now : Nat) (k : String) : Option JSValue :=
  match cacheLookup st k with
  | some (v, exp) => if now < exp then some v else none
  | none => none

/-- Modelled from the spec: `put(key, value, ttl)` stores the value with
`expiresAt = now + ttl`, unconditionally overwriting any existing entry for
that key (`§4.1: last-writer-wins`). -/
def cacheSet (st : CacheStore) (now : Nat) (k : String) (v : JSValue)
    (ttl : Nat) : CacheStore :=
  ⟨k, v, now + ttl⟩ :: st.filter (fun e => e.key != k)

/-- Observable outcome of one run of the cache wrapper: the settled behaviour
of the call (success, failure, or hanging with the thunk), the cache store
after the call, and the number of thunk invocations made. -/
structure CachedCallRun where
  result : ThunkBehavior JSValue
  store : CacheStore
  calls : Nat
deriving DecidableEq

/-- The cache-miss path of `cachedApiCall` (`src/src/index.ts:60-72`): invoke
the thunk once; on success store the response under the key with the given
TTL and return it; on failure rethrow without touching the store; a hanging
thunk leaves the call pending with the store unchanged. -/
def cachedApiCallMiss (cacheKey : String) (ttl : Nat)
    (apiCall : ThunkBehavior JSValue) (st : CacheStore) (now : Nat) :
    CachedCallRun :=
  match apiCall with
  | .ok response => ⟨.ok response, cacheSet st now cacheKey response ttl, 1⟩
  | .err e => ⟨.err e, st, 1⟩
  | .hang => ⟨.hang, st, 1⟩

/-- `cachedApiCall` of `src/src/index.ts:48-73`: read the cache at the key;
`if (cachedResponse)` — i.e. when the lookup yields a truthy value — return
it without invoking the thunk; otherwise fall through to the miss path. -/
def cachedApiCall (cacheKey : String) (ttl : Nat)
    (apiCall : ThunkBehavior JSValue) (st : CacheStore) (now : Nat) :
    CachedCallRun :=
  match cacheGet st now cacheKey with
  | some v =>
    if v.truthy then ⟨.ok v, st, 0⟩
    else cachedApiCallMiss cacheKey ttl apiCall st now
  | none => cachedApiCallMiss cacheKey ttl apiCall st now

/-- The backoff-delay sequence the executor sleeps when every attempt fails
retryably: starting from `delay`, each subsequent entry doubles. -/
def backoffDelays (delay : Nat) : Nat → List Nat
  | 0 => []
  | n + 1 => delay :: backoffDelays (delay * 2) n

/-- A rate-limiting failure: a response with status code 429. -/
def rateLimitError : ApiError :=
  { response := some { statusCode := some 429 }, message := none, code := none }

/-- A not-found failure: a response with status code 404, a terminal kind. -/
def notFoundError : ApiError :=
  { response := some { statusCode := some 404 }, message := none, code := none }

/-- The rate-limit failure is classified transient. -/
lemma rateLimitError_retryable : isRetryableError rateLimitError = true := by
  decide

/-- Helper: the retry executor's run shape when every attempt settles with a
retryable failure — the last attempt's error is propagated, the thunk runs
once per retry budget plus one, and the recorded delays double from `delay`. -/
lemma makeApiCallWithRetry_allRetryable {α : Type} (apiCallFn : Nat → ThunkBehavior α)
    (operation : String) (es : Nat → ApiError)
    (herr : ∀ i, apiCallFn i = .err (es i))
    (hret : ∀ i, isRetryableError (es i) = true) :
    ∀ n delay timeoutMs attempt : Nat,
      makeApiCallWithRetry apiCallFn operation n delay timeoutMs attempt =
        ⟨.error (es (attempt + n)), n + 1, backoffDelays delay n⟩ := by
  intro n
  induction n with
  | zero =>
    intro delay timeoutMs attempt
    unfold makeApiCallWithRetry
    rw [herr attempt]
    simp [withTimeout, backoffDelays]
  | succ r ih =>
    intro delay timeoutMs attempt
    have hidx : attempt + 1 + r = attempt + (r + 1) := by omega
    unfold makeApiCallWithRetry
    rw [herr attempt]
    simp [withTimeout, hret attempt, ih (delay * 2) timeoutMs (attempt + 1), hidx,
      backoffDelays]

/-- Helper: the error produced by the timeout timer is classified
non-retryable whenever its message does not contain the substring "timeout"
(the message says "timed out", so this holds unless the operation name itself
contains "timeout"). -/
lemma isRetryableError_timeoutError (operation : String) (timeoutMs : Nat)
    (hmsg : strIncludes (timeoutMessage operation timeoutMs) "timeout" = false) :
    isRetryableError (timeoutError operation timeoutMs) = false := by
  simp [isRetryableError, timeoutError, hmsg]

/-- Claim C1, counterexample: with the call-site policy of the flight-search
tool (operation "Flight search", retries 2, delay 1000, timeout 25000) and a
thunk that never settles, the attempt's failure is the timer's timeout error,
but it is NOT classified transient and the executor makes no retry: exactly
one invocation, no backoff, terminal propagation. -/
theorem claim_C1_counterexample :
    (makeApiCallWithRetry (fun _ : Nat => (ThunkBehavior.hang : ThunkBehavior JSValue))
        "Flight search" 2 1000 25000 0) =
      ⟨.error (timeoutError "Flight search" 25000), 1, []⟩ ∧
    isRetryableError (timeoutError "Flight search" 25000) = false := by
  decide

/-- Claim C1, amended: a thunk that never settles within the policy timeout
yields the timer's timeout failure for that attempt, but the failure's message
("<operation> timed out after <N>ms") does not contain the substring "timeout"
that the classifier looks for, so — whenever the operation name does not
itself contain "timeout" — the failure is classified terminal and the executor
propagates it immediately: one invocation, no backoff, no retry, for every
retry budget. -/
theorem claim_C1_amended {α : Type} (apiCallFn : Nat → ThunkBehavior α)
    (operation : String) (retries delay timeoutMs attempt : Nat)
    (hhang : apiCallFn attempt = .hang)
    (hmsg : strIncludes (timeoutMessage operation timeoutMs) "timeout" = false) :
    makeApiCallWithRetry apiCallFn operation retries delay timeoutMs attempt =
      ⟨.error (timeoutError operation timeoutMs), 1, []⟩ := by
  have hterm := isRetryableError_timeoutError operation timeoutMs hmsg
  unfold makeApiCallWithRetry
  rw [hhang]
  cases retries <;> simp [withTimeout, hterm]

/-- Claim C1, amended, witness at the hotel-offers call site. -/
theorem claim_C1_amended_witness :
    makeApiCallWithRetry (fun _ : Nat => (ThunkBehavior.hang : ThunkBehavior JSValue))
        "Hotel offers search" 2 1000 25000 0 =
      ⟨.error (timeoutError "Hotel offers search" 25000), 1, []⟩ :=
  claim_C1_amended _ "Hotel offers search" 2 1000 25000 0 rfl (by decide)

/-- Claim C2: with retry budget `n` and a thunk that settles with a
transient-classified failure on every invocation, the executor invokes the
thunk exactly `n + 1` times and propagates the failure of the last attempt. -/
theorem claim_C2_transient_attempts {α : Type} (apiCallFn : Nat → ThunkBehavior α)
    (operation : String) (es : Nat → ApiError) (n delay timeoutMs : Nat)
    (herr : ∀ i, apiCallFn i = .err (es i))
    (hret : ∀ i, isRetryableError (es i) = true) :
    (makeApiCallWithRetry apiCallFn operation n delay timeoutMs 0).calls = n + 1 ∧
    (makeApiCallWithRetry apiCallFn operation n delay timeoutMs 0).result =
      .error (es n) := by
  rw [makeApiCallWithRetry_allRetryable apiCallFn operation es herr hret n delay
    timeoutMs 0]
  simp

/-- Claim C2, witness: always rate-limited thunk under the flight-search
policy makes exactly 3 invocations and propagates the rate-limit failure. -/
theorem claim_C2_transient_attempts_witness :
    (makeApiCallWithRetry
        (fun _ : Nat => (ThunkBehavior.err rateLimitError : ThunkBehavior JSValue))
        "Flight search" 2 1000 25000 0).calls = 2 + 1 ∧
    (makeApiCallWithRetry
        (fun _ : Nat => (ThunkBehavior.err rateLimitError : ThunkBehavior JSValue))
        "Flight search" 2 1000 25000 0).result = .error rateLimitError :=
  claim_C2_transient_attempts _ "Flight search" (fun _ => rateLimitError) 2 1000
    25000 (fun _ => rfl) (fun _ => rateLimitError_retryable)

/-- Claim C3: in every run of the retry executor, the backoff delay recorded
before retry attempt `k + 1` (0-indexed) equals `delay * 2 ^ k`: the first
wait equals the initial delay and each subsequent wait doubles it. -/
theorem claim_C3_backoff_doubling {α : Type} (apiCallFn : Nat → ThunkBehavior α)
    (operation : String) (retries delay timeoutMs attempt k : Nat)
    (hk : k < (makeApiCallWithRetry apiCallFn operation retries delay timeoutMs
      attempt).delays.length) :
    (makeApiCallWithRetry apiCallFn operation retries delay timeoutMs
        attempt).delays[k]? = some (delay * 2 ^ k) := by
  induction retries generalizing delay attempt k with
  | zero =>
    unfold makeApiCallWithRetry at hk
    rcases h : withTimeout (apiCallFn attempt) timeoutMs operation with e | v <;>
      simp [h] at hk
  | succ r ih =>
    unfold makeApiCallWithRetry at hk ⊢
    rcases h : withTimeout (apiCallFn attempt) timeoutMs operation with e | v
    · by_cases hr : isRetryableError e = true
      · simp only [h] at hk ⊢
        simp [hr] at hk ⊢
        cases k with
        | zero => simp
        | succ k =>
          have hk' : k < (makeApiCallWithRetry apiCallFn operation r (delay * 2)
              timeoutMs (attempt + 1)).delays.length := by
            simpa using hk
          rw [List.getElem?_cons_succ, ih (delay * 2) (attempt + 1) k hk']
          congr 1
          ring
      · simp [h, hr] at hk
    · simp [h] at hk

/-- Claim C3, witness: with an always rate-limited thunk, retries 2 and
initial delay 1000, the second recorded delay is `1000 * 2 ^ 1 = 2000`. -/
theorem claim_C3_backoff_doubling_witness :
    (makeApiCallWithRetry
        (fun _ : Nat => (ThunkBehavior.err rateLimitError : ThunkBehavior JSValue))
        "Flight search" 2 1000 25000 0).delays[1]? = some (1000 * 2 ^ 1) :=
  claim_C3_backoff_doubling _ "Flight search" 2 1000 25000 0 1 (by decide)

/-- Claim C4: a thunk whose first attempt settles with a non-transient
failure is invoked exactly once and the failure propagates immediately with
no backoff wait, for every retry budget. -/
theorem claim_C4_terminal_single_attempt {α : Type} (apiCallFn : Nat → ThunkBehavior α)
    (operation : String) (retries delay timeoutMs attempt : Nat) (e : ApiError)
    (herr : apiCallFn attempt = .err e)
    (hterm : isRetryableError e = false) :
    makeApiCallWithRetry apiCallFn operation retries delay timeoutMs attempt =
      ⟨.error e, 1, []⟩ := by
  unfold makeApiCallWithRetry
  rw [herr]
  cases retries <;> simp [withTimeout, hterm]

/-- Claim C4, witness: a 404 failure on the first attempt under the
flight-search policy propagates after exactly one invocation. -/
theorem claim_C4_terminal_single_attempt_witness :
    makeApiCallWithRetry
        (fun _ : Nat => (ThunkBehavior.err notFoundError : ThunkBehavior JSValue))
        "Flight search" 2 1000 25000 0 = ⟨.error notFoundError, 1, []⟩ :=
  claim_C4_terminal_single_attempt _ "Flight search" 2 1000 25000 0 notFoundError
    rfl (by decide)

/-- Claim C5, counterexample: the cache store holds the unexpired entry
`("k", false, expiresAt 100)` at `now = 0`, yet `cachedApiCall` invokes the
thunk (calls = 1) and returns the thunk's value instead of the stored one,
because the hit test is JavaScript truthiness, not presence. -/
theorem claim_C5_counterexample :
    cacheGet [⟨"k", JSValue.boolean false, 100⟩] 0 "k" =
      some (JSValue.boolean false) ∧
    cachedApiCall "k" 600 (.ok (.number 1)) [⟨"k", JSValue.boolean false, 100⟩] 0 =
      ⟨.ok (.number 1), [⟨"k", .number 1, 600⟩], 1⟩ := by
  decide

/-- Claim C5, amended: when the cache store holds an unexpired entry for the
key whose stored value is truthy, `cachedApiCall` returns that stored value
with the store unchanged and zero thunk invocations — no timer, no retry, no
call. -/
theorem claim_C5_amended (cacheKey : String) (ttl : Nat)
    (apiCall : ThunkBehavior JSValue) (st : CacheStore) (now : Nat) (v : JSValue)
    (hget : cacheGet st now cacheKey = some v)
    (htr : v.truthy = true) :
    cachedApiCall cacheKey ttl apiCall st now = ⟨.ok v, st, 0⟩ := by
  unfold cachedApiCall
  rw [hget]
  simp [htr]

/-- Claim C5, amended, witness: a truthy cached object short-circuits the
call even when the thunk would fail. -/
theorem claim_C5_amended_witness :
    cachedApiCall "k" 600 (.err rateLimitError) [⟨"k", JSValue.obj 3, 100⟩] 0 =
      ⟨.ok (.obj 3), [⟨"k", JSValue.obj 3, 100⟩], 0⟩ :=
  claim_C5_amended "k" 600 _ _ 0 (JSValue.obj 3) (by decide) rfl

/-- Claim C6: whenever the thunk fails — settling with an error or never
settling at all — the cache store after `cachedApiCall` is exactly the store
before it: `cache.set` runs only after a successful settlement, so a failed
refresh never overwrites a previously cached value. -/
theorem claim_C6_no_cache_on_failure (cacheKey : String) (ttl : Nat)
    (apiCall : ThunkBehavior JSValue) (st : CacheStore) (now : Nat)
    (hfail : apiCall = ThunkBehavior.hang ∨ ∃ e, apiCall = ThunkBehavior.err e) :
    (cachedApiCall cacheKey ttl apiCall st now).store = st := by
  unfold cachedApiCall cachedApiCallMiss
  rcases hfail with h | ⟨e, h⟩ <;> subst h <;>
    rcases hget : cacheGet st now cacheKey with _ | v <;> simp <;> split <;> simp

/-- Claim C6, witness: a rate-limited refresh of an expired entry leaves the
previously cached entry in place. -/
theorem claim_C6_no_cache_on_failure_witness :
    (cachedApiCall "k" 600 (ThunkBehavior.err rateLimitError)
        [⟨"k", JSValue.obj 3, 50⟩] 60).store = [⟨"k", JSValue.obj 3, 50⟩] :=
  claim_C6_no_cache_on_failure "k" 600 _ _ 60 (Or.inr ⟨rateLimitError, rfl⟩)

/-- Claim C7: `get` on the cache store returns the stored value when an entry
for the key is present and unexpired, and returns absent — never an error and
never an expired value — when there is no entry or the entry's expiration
time has passed. -/
theorem claim_C7_get_semantics (st : CacheStore) (now : Nat) (k : String) :
    (∀ v exp, cacheLookup st k = some (v, exp) → now < exp →
        cacheGet st now k = some v) ∧
    (∀ v exp, cacheLookup st k = some (v, exp) → exp ≤ now →
        cacheGet st now k = none) ∧
    (cacheLookup st k = none → cacheGet st now k = none) := by
  refine ⟨?_, ?_, ?_⟩
  · intro v exp h hlt
    simp [cacheGet, h, hlt]
  · intro v exp h hle
    simp [cacheGet, h, Nat.not_lt.mpr hle]
  · intro h
    simp [cacheGet, h]

/-- Claim C7, witness: on the store `[("a", obj 1, expiresAt 10)]`, `get`
returns the value at time 5, absent at time 20, and absent for key "b". -/
theorem claim_C7_get_semantics_witness :
    cacheGet [⟨"a", JSValue.obj 1, 10⟩] 5 "a" = some (JSValue.obj 1) ∧
    cacheGet [⟨"a", JSValue.obj 1, 10⟩] 20 "a" = none ∧
    cacheGet [⟨"a", JSValue.obj 1, 10⟩] 5 "b" = none :=
  ⟨(claim_C7_get_semantics _ 5 "a").1 (JSValue.obj 1) 10 (by decide) (by decide),
   (claim_C7_get_semantics _ 20 "a").2.1 (JSValue.obj 1) 10 (by decide) (by decide),
   (claim_C7_get_semantics _ 5 "b").2.2 (by decide)⟩

/-- Helper: truthiness conjunct on the message branch is redundant, because
the empty string contains no nonempty substring. -/
lemma truthyAnd_strIncludes_timeout (m : String) :
    (m != "" && strIncludes m "timeout") = strIncludes m "timeout" := by
  by_cases h : m = ""
  · subst h
    rfl
  · have hne : (m != "") = true := by
      simp [bne_iff_ne, h]
    rw [hne, Bool.true_and]

/-- Helper: the nonemptiness conjunct on the code branch is redundant,
because every listed transient code is a nonempty string. -/
lemma codesAnd_iff (c : String) :
    (¬c = "" ∧ (c = "ECONNRESET" ∨ c = "ENOTFOUND" ∨ c = "ETIMEDOUT")) ↔
      (c = "ECONNRESET" ∨ c = "ENOTFOUND" ∨ c = "ETIMEDOUT") := by
  constructor
  · exact fun h => h.2
  · intro h
    refine ⟨?_, h⟩
    rcases h with h | h | h <;> subst h <;> decide

/-- Claim C8: the classifier is a pure predicate over the failure value, true
exactly when the status-code-like field equals 429, or the message contains
the substring "timeout", or the condition code is one of ECONNRESET,
ENOTFOUND, ETIMEDOUT; every other failure is terminal. -/
theorem claim_C8_classifier_iff (e : ApiError) :
    isRetryableError e = true ↔
      ((∃ r, e.response = some r ∧ r.statusCode = some 429) ∨
       (∃ m, e.message = some m ∧ strIncludes m "timeout" = true) ∨
       (∃ c, e.code = some c ∧
         (c = "ECONNRESET" ∨ c = "ENOTFOUND" ∨ c = "ETIMEDOUT"))) := by
  obtain ⟨resp, msg, code⟩ := e
  cases resp <;> cases msg <;> cases code <;>
    simp [isRetryableError, truthyAnd_strIncludes_timeout, codesAnd_iff, or_assoc]

/-- Claim C8, witness: a 429 response is classified transient. -/
theorem claim_C8_classifier_iff_witness :
    isRetryableError rateLimitError = true :=
  (claim_C8_classifier_iff rateLimitError).mpr
    (Or.inl ⟨{ statusCode := some 429 }, rfl, rfl⟩)

/-- Claim C9: when the stored unexpired value for the key is falsy, the call
takes the cache-miss path and invokes the thunk, despite the unexpired entry
existing — the hit test is truthiness, not presence. -/
theorem claim_C9_falsy_hit_is_miss (cacheKey : String) (ttl : Nat)
    (apiCall : ThunkBehavior JSValue) (st : CacheStore) (now : Nat) (v : JSValue)
    (hget : cacheGet st now cacheKey = some v)
    (hfalsy : v.truthy = false) :
    cachedApiCall cacheKey ttl apiCall st now =
      cachedApiCallMiss cacheKey ttl apiCall st now ∧
    (cachedApiCall cacheKey ttl apiCall st now).calls = 1 := by
  have h1 : cachedApiCall cacheKey ttl apiCall st now =
      cachedApiCallMiss cacheKey ttl apiCall st now := by
    unfold cachedApiCall
    rw [hget]
    simp [hfalsy]
  refine ⟨h1, ?_⟩
  rw [h1]
  unfold cachedApiCallMiss
  cases apiCall <;> rfl

/-- Claim C9, witness: an unexpired cached `false` behaves as a miss and the
thunk runs again. -/
theorem claim_C9_falsy_hit_is_miss_witness :
    cachedApiCall "k" 600 (.ok (JSValue.obj 2))
        [⟨"k", JSValue.boolean false, 100⟩] 0 =
      cachedApiCallMiss "k" 600 (.ok (JSValue.obj 2))
        [⟨"k", JSValue.boolean false, 100⟩] 0 ∧
    (cachedApiCall "k" 600 (.ok (JSValue.obj 2))
        [⟨"k", JSValue.boolean false, 100⟩] 0).calls = 1 :=
  claim_C9_falsy_hit_is_miss "k" 600 _ _ 0 (JSValue.boolean false) (by decide) rfl

/-- Claim C10: the cache wrapper performs no retries — for a thunk that fails
(even with a transient-classified failure), the wrapper makes at most one
thunk invocation, and whenever the thunk was invoked the failure propagates
as-is with the store unchanged: no backoff, no second attempt. -/
theorem claim_C10_cache_layer_no_retry (cacheKey : String) (ttl : Nat)
    (e : ApiError) (st : CacheStore) (now : Nat) :
    (cachedApiCall cacheKey ttl (ThunkBehavior.err e) st now).calls ≤ 1 ∧
    ((cachedApiCall cacheKey ttl (ThunkBehavior.err e) st now).calls = 1 →
      cachedApiCall cacheKey ttl (ThunkBehavior.err e) st now =
        ⟨.err e, st, 1⟩) := by
  unfold cachedApiCall cachedApiCallMiss
  rcases hget : cacheGet st now cacheKey with _ | v
  · simp [hget]
  · by_cases ht : v.truthy = true <;> simp [hget, ht]

/-- Claim C10, witness: on an empty store, a rate-limited thunk propagates
its transient-classified failure after exactly one invocation. -/
theorem claim_C10_cache_layer_no_retry_witness :
    cachedApiCall "k" 600 (ThunkBehavior.err rateLimitError) [] 0 =
      ⟨.err rateLimitError, [], 1⟩ ∧
    isRetryableError rateLimitError = true :=
  ⟨(claim_C10_cache_layer_no_retry "k" 600 rateLimitError [] 0).2 (by decide),
   rateLimitError_retryable⟩

